import Mathlib

/-!
Shallow embedding of the `rag-search` example service
(`backend/app/main.py`, `backend/app/endee_client.py`,
`scripts/ingest_docs.py`) and proofs of the specified properties.

The two external collaborators — the embedding provider and the Endee
vector store — are passed in as abstract functions; every outgoing call
the orchestration layer makes to them is recorded in an explicit trace,
so that "no call is made" and "exactly one call is made" are statable.
-/

namespace RagSearch

/-- A Python JSON-ish value, as carried in `meta: dict[str, Any]`.
`obj` stands for any other opaque Python object. -/
inductive PyVal where
  | str : String → PyVal
  | int : Int → PyVal
  | obj : Nat → PyVal
deriving DecidableEq, Repr

/-- A Python `dict[str, Any]`: association list in insertion order,
keys unique in any dict produced by JSON parsing. -/
abbrev Dict := List (String × PyVal)

/-- Python `d[k] = v` on a dict: replace in place if the key is present,
append otherwise (embeds the statement `meta["snippet"] = snippet`
acting on the fresh copy made by `dict(doc.meta or {})`). -/
def dictSet (d : Dict) (k : String) (v : PyVal) : Dict :=
  if d.any (fun kv => kv.1 == k) then
    d.map (fun kv => if kv.1 == k then (k, v) else kv)
  else
    d ++ [(k, v)]

/-- Python `d.get(k)` on a dict. -/
def dictGet (d : Dict) (k : String) : Option PyVal :=
  (d.find? (fun kv => kv.1 == k)).map (fun kv => kv.2)

/-- The `DocumentInput` pydantic model from `main.py`: `meta` is `Optional`
with an empty-dict default. -/
structure DocumentInput where
  id : String
  text : String
  meta : Option Dict
deriving DecidableEq, Repr

/-- One `{id, vector, meta}` entry handed to `index.upsert`. -/
structure Record (Vec : Type) where
  id : String
  vector : Vec
  meta : Dict
deriving DecidableEq, Repr

/-- Mirror of `fastapi.HTTPException(status_code, detail)`. -/
structure HTTPException where
  status_code : Nat
  detail : String
deriving DecidableEq, Repr

/-- The JSON body returned by a successful `POST /ingest`. -/
structure IngestResponse where
  status : String
  ingested : Nat
deriving DecidableEq, Repr

/-- The Endee filter expression form `[{key: {"$eq": value}}, ...]`:
a list of clauses, each clause a dict mapping a key to a dict of
operator → value. -/
abbrev FilterExpr := List (List (String × List (String × PyVal)))

/-- Embedding of `_normalize_filter` from `endee_client.py`:
`[{k: {"$eq": v}} for k, v in filters.items()]`. -/
def normalize_filter (filters : Dict) : FilterExpr :=
  filters.map (fun kv => [(kv.1, [("$eq", kv.2)])])

/-- An outgoing call made by the backend to one of its collaborators. -/
inductive Call (Vec : Type) where
  | embedTexts (texts : List String)
  | embedText (text : String)
  | upsert (records : List (Record Vec))
  | storeQuery (vector : Vec) (top_k : Int) (filter : Option FilterExpr)
deriving DecidableEq, Repr

/-- Embedding of `embed_texts` from `embeddings.py`: the provider's `encode` contract
returns one vector per input text, deterministically per text. -/
def embed_texts {Vec : Type} (embed : String → Vec) (texts : List String) : List Vec :=
  texts.map embed

/-- The snippet expression inside `ingest`:
`doc.text[:200] + "..." if len(doc.text) > 200 else doc.text`. -/
def snippetOf (text : String) : String :=
  if text.length > 200 then text.take 200 ++ "..." else text

/-- The copy `dict(doc.meta or {})`: the fresh copy of the caller's metadata,
`None` replaced by the empty dict. -/
def metaCopy (meta : Option Dict) : Dict :=
  match meta with
  | none => []
  | some d => d

/-- The record built for one document inside the `ingest` loop. -/
def buildRecord {Vec : Type} (doc : DocumentInput) (vector : Vec) : Record Vec :=
  { id := doc.id
    vector := vector
    meta := dictSet (metaCopy doc.meta) "snippet" (PyVal.str (snippetOf doc.text)) }

/-- The `vectors_with_metadata` list the `ingest` loop builds:
one record per `(doc, vector)` pair of `zip(request.documents, vectors)`. -/
def ingestRecords {Vec : Type} (embed : String → Vec)
    (documents : List DocumentInput) : List (Record Vec) :=
  List.zipWith buildRecord documents
    (embed_texts embed (documents.map (fun d => d.text)))

/-- The `POST /ingest` handler from `main.py`, with its outgoing-call
trace. An empty document list raises `HTTPException(400)` before any
collaborator call; otherwise all texts are embedded in one batch and
the records are handed to `upsert_documents` as one batch. -/
def ingest {Vec : Type} (embed : String → Vec) (documents : List DocumentInput) :
    Except HTTPException IngestResponse × List (Call Vec) :=
  if documents.isEmpty then
    (Except.error { status_code := 400, detail := "No documents provided" }, [])
  else
    (Except.ok { status := "ok", ingested := documents.length },
      [Call.embedTexts (documents.map (fun d => d.text)),
       Call.upsert (ingestRecords embed documents)])

/-- The `QueryRequest` model after pydantic validation: `top_k` is an `int` with
`ge=1, le=50` and default 5. -/
structure QueryRequest where
  query_text : String
  top_k : Int
  filters : Option Dict
deriving DecidableEq, Repr

/-- Pydantic parsing of the `POST /query` body: `top_k` defaults to 5
when omitted and the request is rejected (HTTP 422 validation error,
before the handler runs) when `top_k` is outside `1..50`. -/
def parseQueryRequest (query_text : String) (top_k : Option Int)
    (filters : Option Dict) : Except HTTPException QueryRequest :=
  let k := top_k.getD 5
  if 1 ≤ k ∧ k ≤ 50 then
    Except.ok { query_text := query_text, top_k := k, filters := filters }
  else
    Except.error { status_code := 422, detail := "top_k out of range" }

/-- The Python truthiness test `if filters:` on an `Optional[dict]`:
`None` and the empty dict are falsy. -/
def pyTruthy (filters : Option Dict) : Bool :=
  match filters with
  | none => false
  | some d => !d.isEmpty

/-- The `filter` keyword argument `query_similar` passes to
`index.query`: present only when `filters` is truthy, in which case it
is the normalized form. -/
def querySimilarFilterArg (filters : Option Dict) : Option FilterExpr :=
  if pyTruthy filters then
    match filters with
    | none => none
    | some d => some (normalize_filter d)
  else none

/-- Embedding of `query_similar` from `endee_client.py`, with its call to
`index.query` recorded: builds `kwargs` and returns the store's result
as is. `store` abstracts `index.query`. -/
def query_similar {Vec R : Type} (store : Vec → Int → Option FilterExpr → R)
    (vector : Vec) (top_k : Int) (filters : Option Dict) :
    R × List (Call Vec) :=
  let filterArg := querySimilarFilterArg filters
  (store vector top_k filterArg, [Call.storeQuery vector top_k filterArg])

/-- The JSON body returned by `POST /query`: `{"results": ...}`. -/
structure QueryResponse (R : Type) where
  results : R
deriving DecidableEq, Repr

/-- The `POST /query` handler body from `main.py`: embed the query text
once, call `query_similar`, wrap the result. -/
def queryHandler {Vec R : Type} (embed : String → Vec)
    (store : Vec → Int → Option FilterExpr → R) (request : QueryRequest) :
    QueryResponse R × List (Call Vec) :=
  let query_vector := embed request.query_text
  let (results, clientCalls) :=
    query_similar store query_vector request.top_k request.filters
  ({ results := results }, Call.embedText request.query_text :: clientCalls)

/-- The whole `POST /query` endpoint including pydantic validation:
a validation failure returns the error with no collaborator call. -/
def queryEndpoint {Vec R : Type} (embed : String → Vec)
    (store : Vec → Int → Option FilterExpr → R) (query_text : String)
    (top_k : Option Int) (filters : Option Dict) :
    Except HTTPException (QueryResponse R) × List (Call Vec) :=
  match parseQueryRequest query_text top_k filters with
  | Except.error e => (Except.error e, [])
  | Except.ok request =>
      let (response, calls) := queryHandler embed store request
      (Except.ok response, calls)

/-- The `endee.Precision` values used by the client. -/
inductive Precision where
  | int8
  | float16
  | float32
deriving DecidableEq, Repr

/-- Index-level calls made by `ensure_index_exists`. -/
inductive IndexCall where
  | getIndex (name : String)
  | createIndex (name : String) (dimension : Nat) (space_type : String)
      (precision : Precision)
deriving DecidableEq, Repr

/-- The environment-driven index configuration from `config.py`
(`INDEX_NAME`, `EMBEDDING_DIM`, `SPACE_TYPE`). -/
structure IndexConfig where
  index_name : String
  embedding_dim : Nat
  space_type : String
deriving DecidableEq, Repr

/-- The defaults from `config.py` when no environment override is set. -/
def defaultConfig : IndexConfig :=
  { index_name := "documents", embedding_dim := 384, space_type := "cosine" }

/-- Embedding of `ensure_index_exists` from `endee_client.py`: try `get_index`; on
any exception create the index with the configured dimension and space
type at `Precision.INT8`. `fetch` abstracts the outcome of
`client.get_index(name=INDEX_NAME)`; the exception payload is a string. -/
def ensure_index_exists (cfg : IndexConfig) (fetch : Except String Unit) :
    List IndexCall :=
  match fetch with
  | Except.ok _ => [IndexCall.getIndex cfg.index_name]
  | Except.error _ =>
      [IndexCall.getIndex cfg.index_name,
       IndexCall.createIndex cfg.index_name cfg.embedding_dim cfg.space_type
         Precision.int8]

/-- Outcome of the single `requests.post` in `scripts/ingest_docs.py`,
as the script's `try` block distinguishes it: a `ConnectionError`, some
other `RequestException` (including the `raise_for_status` HTTP error),
or success, carrying the optional `ingested` field of the JSON body. -/
inductive PostOutcome where
  | connectionError
  | requestException (msg : String) (response_text : Option String)
  | ok (ingested : Option Nat)
deriving DecidableEq, Repr

/-- What one run of the bulk loader's `main` produces. -/
structure LoaderRun where
  exit_code : Nat
  messages : List String
  post_attempts : Nat
deriving DecidableEq, Repr

/-- Embedding of `main` from `scripts/ingest_docs.py`: `docs` is the list the
directory scan produced, `outcome` the result of the one HTTP post.
Returns the exit code, the printed messages and how many posts were
attempted. -/
def loaderMain (docs : List DocumentInput) (outcome : PostOutcome) : LoaderRun :=
  if docs.isEmpty then
    { exit_code := 1, messages := ["No documents found to ingest."],
      post_attempts := 0 }
  else
    match outcome with
    | PostOutcome.ok ingested =>
        { exit_code := 0,
          messages :=
            ["Ingested " ++ toString (ingested.getD docs.length) ++ " documents."],
          post_attempts := 1 }
    | PostOutcome.connectionError =>
        { exit_code := 1,
          messages :=
            ["Error: Could not connect to the API. Is the backend running on port 8000?"],
          post_attempts := 1 }
    | PostOutcome.requestException msg response_text =>
        { exit_code := 1,
          messages :=
            ("Error: " ++ msg) ::
              (match response_text with
               | some t => [t]
               | none => []),
          post_attempts := 1 }

/-- Whether a collaborator call is a call to the embedding provider. -/
def isEmbedCall {Vec : Type} : Call Vec → Bool
  | Call.embedText _ => true
  | Call.embedTexts _ => true
  | _ => false

/-! ### Supporting lemmas about the dict embedding -/

/-- Setting a key makes lookup at that key return the new value
(this is the overwrite behaviour of `meta["snippet"] = snippet`). -/
lemma dictGet_dictSet_same (d : Dict) (k : String) (v : PyVal) :
    dictGet (dictSet d k v) k = some v := by
  unfold dictSet dictGet
  cases h : d.any (fun kv => kv.1 == k) with
  | false =>
      have hnone : d.find? (fun kv => kv.1 == k) = none := by
        rw [List.find?_eq_none]
        intro x hx hpx
        have hany : d.any (fun kv => kv.1 == k) = true :=
          List.any_eq_true.mpr ⟨x, hx, hpx⟩
        rw [h] at hany
        exact Bool.false_ne_true hany
      simp [h, List.find?_append, hnone, List.find?]
  | true =>
      simp only [h, if_true]
      rw [List.find?_map]
      have hpred :
          ((fun kv : String × PyVal => kv.1 == k) ∘
            (fun kv => if kv.1 == k then (k, v) else kv)) =
          (fun kv : String × PyVal => kv.1 == k) := by
        funext kv
        by_cases hk : kv.1 = k
        · simp [hk]
        · simp [hk]
      rw [hpred]
      obtain ⟨x, hx, hpx⟩ := List.any_eq_true.mp h
      obtain ⟨a, ha⟩ : ∃ a, d.find? (fun kv => kv.1 == k) = some a := by
        cases hf : d.find? (fun kv => kv.1 == k) with
        | none => exact absurd hpx (List.find?_eq_none.mp hf x hx)
        | some a => exact ⟨a, rfl⟩
      have hpa : a.1 = k := by
        have := List.find?_some ha
        simpa using this
      simp [ha, hpa]

/-- Setting one key leaves lookup at every other key unchanged
(the frame part of the snippet merge). -/
lemma dictGet_dictSet_ne (d : Dict) (k k' : String) (v : PyVal)
    (hne : k' ≠ k) :
    dictGet (dictSet d k v) k' = dictGet d k' := by
  unfold dictSet dictGet
  have hkk : (k == k') = false := by
    simp [Ne.symm hne]
  cases h : d.any (fun kv => kv.1 == k) with
  | false =>
      have hsingle : List.find? (fun kv : String × PyVal => kv.1 == k') [(k, v)] = none := by
        simp [List.find?, hkk]
      simp [h, List.find?_append, hsingle]
  | true =>
      simp only [h, if_true]
      rw [List.find?_map]
      have hpred :
          ((fun kv : String × PyVal => kv.1 == k') ∘
            (fun kv => if kv.1 == k then (k, v) else kv)) =
          (fun kv : String × PyVal => kv.1 == k') := by
        funext kv
        by_cases hk : kv.1 = k
        · simp [hk, Ne.symm hne]
        · simp [hk]
      rw [hpred]
      cases hf : d.find? (fun kv => kv.1 == k') with
      | none => simp
      | some a =>
          have ha1 : a.1 = k' := by
            have := List.find?_some hf
            simpa using this
          simp [ha1, hne]

/-- The record list `ingest` builds, in closed form: one record per
document, each embedding that document's own text. -/
lemma ingestRecords_eq_map {Vec : Type} (embed : String → Vec)
    (documents : List DocumentInput) :
    ingestRecords embed documents =
      documents.map (fun d => buildRecord d (embed d.text)) := by
  unfold ingestRecords embed_texts
  rw [List.map_map, List.zipWith_map_right, List.zipWith_same]
  rfl

/-! ### Claim theorems -/

/-- C1: for every document passed to `ingest`, the snippet stored in
the corresponding record's metadata is the first 200 characters of the
document's text followed by "..." when the text is longer than 200
characters, and the text unchanged otherwise. -/
theorem ingest_snippet_truncation {Vec : Type} (embed : String → Vec)
    (documents : List DocumentInput) (i : Nat) (doc : DocumentInput)
    (h : documents[i]? = some doc) :
    ((ingestRecords embed documents)[i]?).map
        (fun r => dictGet r.meta "snippet") =
      some (some (PyVal.str
        (if 200 < doc.text.length then doc.text.take 200 ++ "..."
         else doc.text))) := by
  rw [ingestRecords_eq_map, List.getElem?_map, h]
  show some (dictGet (dictSet (metaCopy doc.meta) "snippet"
      (PyVal.str (snippetOf doc.text))) "snippet") = _
  rw [dictGet_dictSet_same]
  rfl

set_option maxRecDepth 100000 in
/-- Witness for C1 at a document whose text is 210 characters of `a`
(and so is truncated to 200 plus the ellipsis). -/
theorem ingest_snippet_truncation_witness :
    ((ingestRecords (fun _ => (0 : Nat))
        [{ id := "d1",
           text := String.mk (List.replicate 210 'a'),
           meta := none }])[0]?).map
        (fun r => dictGet r.meta "snippet") =
      some (some (PyVal.str
        (if 200 < (String.mk (List.replicate 210 'a')).length then
          (String.mk (List.replicate 210 'a')).take 200 ++ "..."
         else String.mk (List.replicate 210 'a')))) :=
  ingest_snippet_truncation (fun _ => (0 : Nat))
    [{ id := "d1", text := String.mk (List.replicate 210 'a'), meta := none }]
    0 _ rfl

/-- C2: an ingest request with an empty document list yields the
HTTP 400 error and an empty collaborator-call trace — no embedding
call and no vector-store call, hence no change to stored state. -/
theorem ingest_empty_rejected {Vec : Type} (embed : String → Vec) :
    ingest embed ([] : List DocumentInput) =
      (Except.error { status_code := 400, detail := "No documents provided" },
       ([] : List (Call Vec))) :=
  rfl

/-- C3: `_normalize_filter` produces exactly one single-key `$eq`
clause per key of the filter mapping, in order; in particular the
filter `{"source": "a.md"}` yields the single clause
`[{"source": {"$eq": "a.md"}}]`. -/
theorem normalize_filter_equality_clauses (filters : Dict)
    (i : Nat) (_h : filters ≠ []) :
    (normalize_filter filters).length = filters.length ∧
    (normalize_filter filters)[i]? =
      (filters[i]?).map (fun kv => [(kv.1, [("$eq", kv.2)])]) ∧
    normalize_filter [("source", PyVal.str "a.md")] =
      [[("source", [("$eq", PyVal.str "a.md")])]] :=
  ⟨List.length_map .., List.getElem?_map .., rfl⟩

/-- Witness for C3 at the filter `{"source": "a.md"}`, position 0. -/
theorem normalize_filter_equality_clauses_witness :
    (normalize_filter [("source", PyVal.str "a.md")]).length =
      [(("source" : String), PyVal.str "a.md")].length ∧
    (normalize_filter [("source", PyVal.str "a.md")])[0]? =
      ([(("source" : String), PyVal.str "a.md")][0]?).map
        (fun kv => [(kv.1, [("$eq", kv.2)])]) ∧
    normalize_filter [("source", PyVal.str "a.md")] =
      [[("source", [("$eq", PyVal.str "a.md")])]] :=
  normalize_filter_equality_clauses [("source", PyVal.str "a.md")] 0
    (by decide)

/-- C4: a `top_k` below 1 or above 50 is rejected by validation with no
collaborator call (empty trace), and an omitted `top_k` parses to the
default 5. -/
theorem query_topk_validation {Vec R : Type} (embed : String → Vec)
    (store : Vec → Int → Option FilterExpr → R) (query_text : String)
    (filters : Option Dict) (k : Int) (h : k < 1 ∨ 50 < k) :
    (∃ e : HTTPException,
      queryEndpoint embed store query_text (some k) filters =
        (Except.error e, ([] : List (Call Vec)))) ∧
    parseQueryRequest query_text none filters =
      Except.ok { query_text := query_text, top_k := 5, filters := filters } := by
  constructor
  · refine ⟨{ status_code := 422, detail := "top_k out of range" }, ?_⟩
    unfold queryEndpoint parseQueryRequest
    have hcond : ¬ (1 ≤ (some k).getD 5 ∧ (some k).getD 5 ≤ 50) := by
      simp only [Option.getD_some]
      rcases h with h | h
      · rintro ⟨h1, -⟩
        omega
      · rintro ⟨-, h2⟩
        omega
    rw [if_neg hcond]
  · rfl

/-- Witness for C4 at `top_k = 0`. -/
theorem query_topk_validation_witness :
    (∃ e : HTTPException,
      queryEndpoint (fun _ => (0 : Nat)) (fun _ _ _ => (0 : Nat)) "q"
          (some 0) none =
        (Except.error e, ([] : List (Call Nat)))) ∧
    parseQueryRequest "q" none none =
      Except.ok { query_text := "q", top_k := 5, filters := none } :=
  query_topk_validation (fun _ => (0 : Nat)) (fun _ _ _ => (0 : Nat)) "q"
    none 0 (Or.inl (by norm_num))

/-- C5: a non-empty ingest request answers
`{"status": "ok", "ingested": n}` with `n` the number of documents, and
the trace is one embedding batch followed by one upsert batch whose
records are in input order with matching ids. -/
theorem ingest_success_response {Vec : Type} (embed : String → Vec)
    (documents : List DocumentInput) (i : Nat) (h : documents ≠ []) :
    ingest embed documents =
      (Except.ok { status := "ok", ingested := documents.length },
       [Call.embedTexts (documents.map (fun d => d.text)),
        Call.upsert (ingestRecords embed documents)]) ∧
    (ingestRecords embed documents).length = documents.length ∧
    ((ingestRecords embed documents)[i]?).map (fun r => r.id) =
      (documents[i]?).map (fun d => d.id) := by
  refine ⟨?_, ?_, ?_⟩
  · unfold ingest
    rw [if_neg (by simp [h])]
  · rw [ingestRecords_eq_map, List.length_map]
  · rw [ingestRecords_eq_map, List.getElem?_map, Option.map_map]
    rfl

/-- Witness for C5 at a one-document request, with the resulting
response, trace, and record evaluated concretely. -/
theorem ingest_success_response_witness :
    ingest (fun _ => (0 : Nat)) [{ id := "a", text := "t", meta := none }] =
      (Except.ok { status := "ok", ingested := 1 },
       [Call.embedTexts ["t"],
        Call.upsert
          [{ id := "a", vector := 0, meta := [("snippet", PyVal.str "t")] }]]) ∧
    (ingestRecords (fun _ => (0 : Nat))
        [{ id := "a", text := "t", meta := none }]).length = 1 ∧
    ((ingestRecords (fun _ => (0 : Nat))
        [{ id := "a", text := "t", meta := none }])[0]?).map (fun r => r.id) =
      some "a" := by
  have h := ingest_success_response (fun _ => (0 : Nat))
    [{ id := "a", text := "t", meta := none }] 0 (by decide)
  refine ⟨?_, ?_, ?_⟩
  · rw [h.1]
    rfl
  · rw [h.2.1]
    rfl
  · rw [h.2.2]
    rfl

/-- C6: the `POST /query` handler returns exactly the store's ranked
result for the embedded query vector — the trace is one embedding call
followed by one store query, and the response's `results` field is the
store's return value untouched. -/
theorem query_results_unmodified {Vec R : Type} (embed : String → Vec)
    (store : Vec → Int → Option FilterExpr → R) (request : QueryRequest) :
    queryHandler embed store request =
      ({ results := store (embed request.query_text) request.top_k
            (querySimilarFilterArg request.filters) },
       [Call.embedText request.query_text,
        Call.storeQuery (embed request.query_text) request.top_k
          (querySimilarFilterArg request.filters)]) ∧
    ((queryHandler embed store request).2.filter isEmbedCall).length = 1 :=
  ⟨rfl, rfl⟩

/-- C7: the startup guard fetches the index by name; on any exception
it creates the index with the configured dimension and space type at
INT8 precision, and on success its whole trace is the single fetch (so
no creation call). -/
theorem ensure_index_fetch_fallback (cfg : IndexConfig) (e : String) :
    ensure_index_exists cfg (Except.error e) =
      [IndexCall.getIndex cfg.index_name,
       IndexCall.createIndex cfg.index_name cfg.embedding_dim cfg.space_type
         Precision.int8] ∧
    ensure_index_exists cfg (Except.ok ()) =
      [IndexCall.getIndex cfg.index_name] :=
  ⟨rfl, rfl⟩

/-- C8: the bulk loader exits 0 exactly when documents were found and
the request succeeded (non-zero when none were found or it failed),
makes at most one HTTP post — none at all when no documents were found
— and prints the fixed connection-failure text on a `ConnectionError`
but `"Error: "` followed by the exception text on any other request
failure, so the two failure kinds are reported by distinct templates. -/
theorem loader_exit_and_reporting (docs : List DocumentInput)
    (outcome : PostOutcome) (d : DocumentInput) (ds : List DocumentInput)
    (msg : String) (response_text : Option String) :
    ((loaderMain docs outcome).exit_code = 0 ↔
      docs ≠ [] ∧ ∃ n, outcome = PostOutcome.ok n) ∧
    (loaderMain docs outcome).post_attempts ≤ 1 ∧
    (loaderMain [] outcome).post_attempts = 0 ∧
    (loaderMain (d :: ds) PostOutcome.connectionError).messages =
      ["Error: Could not connect to the API. Is the backend running on port 8000?"] ∧
    (loaderMain (d :: ds)
        (PostOutcome.requestException msg response_text)).messages =
      ("Error: " ++ msg) ::
        (match response_text with
         | some t => [t]
         | none => []) := by
  refine ⟨?_, ?_, rfl, rfl, rfl⟩
  · unfold loaderMain
    rcases docs with _ | ⟨d0, ds0⟩
    · simp
    · cases outcome <;> simp
  · unfold loaderMain
    rcases docs with _ | ⟨d0, ds0⟩
    · simp
    · cases outcome <;> simp

/-- C9: a query whose `filters` mapping is present but empty behaves
exactly as if no filter were given: the `filter` keyword argument is
omitted from the store call and the whole endpoint result coincides
with the unfiltered one. -/
theorem query_empty_filters_like_none {Vec R : Type} (embed : String → Vec)
    (store : Vec → Int → Option FilterExpr → R) (vector : Vec) (top_k : Int)
    (query_text : String) (k : Option Int) :
    querySimilarFilterArg (some ([] : Dict)) = none ∧
    query_similar store vector top_k (some ([] : Dict)) =
      query_similar store vector top_k none ∧
    queryEndpoint embed store query_text k (some ([] : Dict)) =
      queryEndpoint embed store query_text k none := by
  refine ⟨rfl, rfl, ?_⟩
  unfold queryEndpoint parseQueryRequest
  by_cases hk : 1 ≤ k.getD 5 ∧ k.getD 5 ≤ 50
  · rw [if_pos hk, if_pos hk]
    rfl
  · rw [if_neg hk, if_neg hk]

/-- C10: the i-th stored record's metadata holds the derived snippet
under the key "snippet" — overwriting any caller-supplied value for
that key, since the lookup yields the derived snippet whatever
`doc.meta` contained — while lookup at every other key agrees with the
caller's metadata; the whole record metadata is the copy
`dict(doc.meta or {})` updated at "snippet" (the embedding is a pure
function of `doc.meta`, so the caller's mapping itself is untouched). -/
theorem ingest_meta_merge_frame {Vec : Type} (embed : String → Vec)
    (documents : List DocumentInput) (i : Nat) (doc : DocumentInput)
    (h : documents[i]? = some doc) (k : String) (hk : k ≠ "snippet") :
    ((ingestRecords embed documents)[i]?).map
        (fun r => dictGet r.meta "snippet") =
      some (some (PyVal.str (snippetOf doc.text))) ∧
    ((ingestRecords embed documents)[i]?).map (fun r => dictGet r.meta k) =
      some (dictGet (metaCopy doc.meta) k) ∧
    ((ingestRecords embed documents)[i]?).map (fun r => r.meta) =
      some (dictSet (metaCopy doc.meta) "snippet"
        (PyVal.str (snippetOf doc.text))) := by
  rw [ingestRecords_eq_map, List.getElem?_map, h]
  refine ⟨?_, ?_, rfl⟩
  · show some (dictGet (dictSet (metaCopy doc.meta) "snippet"
        (PyVal.str (snippetOf doc.text))) "snippet") = _
    rw [dictGet_dictSet_same]
  · show some (dictGet (dictSet (metaCopy doc.meta) "snippet"
        (PyVal.str (snippetOf doc.text))) k) = _
    rw [dictGet_dictSet_ne _ _ _ _ hk]

/-- Witness for C10 at a document whose caller metadata already has a
"snippet" entry (overwritten) and a "title" entry (preserved). -/
theorem ingest_meta_merge_frame_witness :
    ((ingestRecords (fun _ => (0 : Nat))
        [{ id := "a", text := "t",
           meta := some [("snippet", PyVal.str "caller"),
             ("title", PyVal.str "T")] }])[0]?).map
        (fun r => dictGet r.meta "snippet") =
      some (some (PyVal.str (snippetOf "t"))) ∧
    ((ingestRecords (fun _ => (0 : Nat))
        [{ id := "a", text := "t",
           meta := some [("snippet", PyVal.str "caller"),
             ("title", PyVal.str "T")] }])[0]?).map
        (fun r => dictGet r.meta "title") =
      some (dictGet (metaCopy (some [("snippet", PyVal.str "caller"),
        ("title", PyVal.str "T")])) "title") ∧
    ((ingestRecords (fun _ => (0 : Nat))
        [{ id := "a", text := "t",
           meta := some [("snippet", PyVal.str "caller"),
             ("title", PyVal.str "T")] }])[0]?).map (fun r => r.meta) =
      some (dictSet (metaCopy (some [("snippet", PyVal.str "caller"),
        ("title", PyVal.str "T")])) "snippet" (PyVal.str (snippetOf "t"))) :=
  ingest_meta_merge_frame (fun _ => (0 : Nat))
    [{ id := "a", text := "t",
       meta := some [("snippet", PyVal.str "caller"),
         ("title", PyVal.str "T")] }]
    0 _ rfl "title" (by decide)

end RagSearch
